import Mathlib

/- Verification of the grading-stage execution and result-classification core
of the plags-scripts repository (judge_util.py, judge_setting.py,
build_formatted.py).  Python data is embedded shallowly: dicts become
insertion-ordered association lists with Python update semantics, exception
classes become an inductive mirror of the relevant part of the builtin
exception hierarchy, functions that may raise return a pair or an Except
carrying the raised class. -/

set_option maxHeartbeats 1000000

/- ### Python dictionaries.
Insertion-ordered association lists.  All dicts in the embedded code are
built from the empty dict by insertion and deletion, so keys are unique and
the recursive update-in-place below coincides with CPython dict semantics:
an existing key keeps its position and gets the new value, a fresh key is
appended at the end. -/

namespace pyDict

/-- Embeds the Python assignment d[k] = v and the dict-literal update
with double-star unpacking: update in place if present, append otherwise. -/
def insert {κ α : Type} [DecidableEq κ] : List (κ × α) → κ → α → List (κ × α)
  | [], k, v => [(k, v)]
  | p :: d, k, v => if p.1 = k then (k, v) :: d else p :: insert d k v

/-- Embeds a Python dict comprehension over a list of key-value pairs. -/
def ofPairs {κ α : Type} [DecidableEq κ] (l : List (κ × α)) : List (κ × α) :=
  l.foldl (fun d p => insert d p.1 p.2) []

/-- Embeds d.get(k) returning None when the key is absent. -/
def get? {κ α : Type} [DecidableEq κ] : List (κ × α) → κ → Option α
  | [], _ => none
  | p :: d, k => if p.1 = k then some p.2 else get? d k

/-- Embeds d.pop(k, None): removes the entry for k when present. -/
def pop {κ α : Type} [DecidableEq κ] : List (κ × α) → κ → List (κ × α)
  | [], _ => []
  | p :: d, k => if p.1 = k then d else p :: pop d k

end pyDict

/- ### The Python builtin exception hierarchy, restricted to the classes
relevant to judge_util.py and its callers. -/

inductive ExcClass : Type
  | BaseException
  | SystemExit
  | KeyboardInterrupt
  | Exception
  | ArithmeticError
  | ZeroDivisionError
  | LookupError
  | IndexError
  | KeyError
  | ValueError
  | TypeError
  | NameError
  | AttributeError
  | RuntimeError
  | NotImplementedError
  | AssertionError
  | OSError
  | FileNotFoundError
  deriving DecidableEq, Repr

/-- Direct base class of each modelled exception class, as fixed by CPython. -/
def ExcClass.parent : ExcClass → Option ExcClass
  | .BaseException => none
  | .SystemExit => some .BaseException
  | .KeyboardInterrupt => some .BaseException
  | .Exception => some .BaseException
  | .ArithmeticError => some .Exception
  | .ZeroDivisionError => some .ArithmeticError
  | .LookupError => some .Exception
  | .IndexError => some .LookupError
  | .KeyError => some .LookupError
  | .ValueError => some .Exception
  | .TypeError => some .Exception
  | .NameError => some .Exception
  | .AttributeError => some .Exception
  | .RuntimeError => some .Exception
  | .NotImplementedError => some .RuntimeError
  | .AssertionError => some .Exception
  | .OSError => some .Exception
  | .FileNotFoundError => some .OSError

/-- Walks at most the given number of steps up the base-class chain. -/
def pyIssubclassAux : Nat → ExcClass → ExcClass → Bool
  | 0, _, _ => false
  | n + 1, c, d =>
    decide (c = d) ||
      match c.parent with
      | none => false
      | some p => pyIssubclassAux n p d

/-- Embeds the Python builtin issubclass on the modelled hierarchy; the
chain of base classes has depth at most four, so eight steps suffice. -/
def pyIssubclass (c d : ExcClass) : Bool :=
  pyIssubclassAux 8 c d

/-- A class is a lookup error when it is a subclass of the builtin
LookupError; in CPython only LookupError, IndexError and KeyError are. -/
def isLookupError (c : ExcClass) : Bool :=
  pyIssubclass c .LookupError

/- ### Regular expressions of EvaluationTag.__new__ (judge_util.py lines
78 to 88), compiled to character-level predicates. -/

/-- Character class of the pattern [0-9A-Za-z]. -/
def re_name_char (c : Char) : Bool :=
  (decide ('0' ≤ c) && decide (c ≤ '9')) ||
  (decide ('A' ≤ c) && decide (c ≤ 'Z')) ||
  (decide ('a' ≤ c) && decide (c ≤ 'z'))

/-- Full match of the pattern [0-9A-Za-z] repeated one to sixteen times. -/
def re_fullmatch_name (s : String) : Bool :=
  decide (1 ≤ s.data.length) && decide (s.data.length ≤ 16) && s.data.all re_name_char

/-- The six characters excluded by the negated class of the text pattern:
bell, backspace, form feed, line feed, carriage return, vertical tab.
Note that other control characters, such as horizontal tab, are allowed. -/
def re_text_excluded_char (c : Char) : Bool :=
  decide (c = '\x07') || decide (c = '\x08') || decide (c = '\x0C') ||
  decide (c = '\x0A') || decide (c = '\x0D') || decide (c = '\x0B')

/-- Full match of the text pattern: one or more characters, none of them
among the six excluded control characters. -/
def re_fullmatch_text (s : String) : Bool :=
  decide (1 ≤ s.data.length) && s.data.all (fun c => ! re_text_excluded_char c)

/-- Character class of the pattern [0-9A-Fa-f]. -/
def re_hex_char (c : Char) : Bool :=
  (decide ('0' ≤ c) && decide (c ≤ '9')) ||
  (decide ('A' ≤ c) && decide (c ≤ 'F')) ||
  (decide ('a' ≤ c) && decide (c ≤ 'f'))

/-- Full match of the color pattern: a number sign followed by exactly six
hexadecimal digits. -/
def re_fullmatch_color (s : String) : Bool :=
  match s.data with
  | c :: rest => decide (c = '#') && decide (rest.length = 6) && rest.all re_hex_char
  | [] => false

/- ### EvaluationTag (judge_util.py lines 70 to 92). -/

structure EvaluationTag : Type where
  name : String
  description : String
  background_color : String
  font_color : String
  visible : Bool
  deriving DecidableEq, Repr

/-- Embeds EvaluationTag.__new__: raises ValueError unless the name, the
description and the two colors fully match their patterns.  The visible
field is typed Bool in this embedding, so the isinstance check of the
source is always satisfied. -/
def EvaluationTag.new (name description background_color font_color : String)
    (visible : Bool) : Except ExcClass EvaluationTag :=
  if ! re_fullmatch_name name || ! re_fullmatch_text description ||
     ! re_fullmatch_color background_color || ! re_fullmatch_color font_color then
    .error .ValueError
  else
    .ok ⟨name, description, background_color, font_color, visible⟩

/-- True exactly when an embedded raising computation completed normally. -/
def except_ok {ε α : Type} : Except ε α → Bool
  | .ok _ => true
  | .error _ => false

/- ### EvaluationTagMapping (judge_util.py lines 95 to 118) and the
predefined tags (lines 121 to 138). -/

/-- Embeds EvaluationTagMapping.__init__: the private name map is the dict
comprehension keyed by tag name over the given tags.  The source contains
no raise statement, so construction always completes; it is typed Except to
make that fact a statement rather than a convention. -/
def EvaluationTagMapping.init (tags : List EvaluationTag) :
    Except ExcClass (List (String × EvaluationTag)) :=
  .ok (pyDict.ofPairs (tags.map (fun t => (t.name, t))))

/-- Embeds EvaluationTagMapping.__getitem__ on the built name map. -/
def EvaluationTagMapping.getitem (m : List (String × EvaluationTag)) (k : String) :
    Option EvaluationTag :=
  pyDict.get? m k

/-- The PREDEFINED_TAGS tuple of judge_util.py, lines 121 to 138. -/
def PREDEFINED_TAGS : List EvaluationTag :=
  [⟨"SE", "Syntax Error", "#ffbf3f", "#ffdfbf", true⟩,
   ⟨"SCE", "Shell Command (!command) Exists", "#ffbf3f", "#ffdfbf", true⟩,
   ⟨"MCE", "Magic Command (%command) Exists", "#ffbf3f", "#ffdfbf", true⟩,
   ⟨"UMI", "Unsupported Module Imported", "#ffbf3f", "#ffdfbf", true⟩,
   ⟨"TE", "Top-level Error", "#ffbf3f", "#ffdfbf", true⟩,
   ⟨"IOT", "I/O found at Top level", "#ffbf3f", "#ffdfbf", true⟩,
   ⟨"QE", "Question Exists", "#6f00ff", "#e5d1ff", true⟩,
   ⟨"CO", "Correct Output", "#7fbf7f", "#dfffdf", true⟩,
   ⟨"IO", "Incorrect Output", "#bf7f7f", "#ffdfdf", true⟩,
   ⟨"ND", "No Definition", "#333333", "#cccccc", true⟩,
   ⟨"NF", "Not Filled", "#333333", "#cccccc", true⟩]

/-- The name map of the predefined tag registry. -/
def predefined_map : List (String × EvaluationTag) :=
  pyDict.ofPairs (PREDEFINED_TAGS.map (fun t => (t.name, t)))

/- ### Notebook cells and extract_special_unique_cell (judge_util.py lines
219 to 225). -/

/-- A notebook cell, restricted to the metadata fields the extraction
consults: metadata.get of the key name (None when absent) and metadata.get
of the key deletable with default True. -/
structure Cell : Type where
  source : String
  meta_name : Option String
  meta_deletable : Option Bool
  deriving DecidableEq, Repr

/-- The value of metadata.get applied to the key deletable with default
True. -/
def Cell.deletable_or_true (c : Cell) : Bool :=
  c.meta_deletable.getD true

structure Ipynb : Type where
  cells : List Cell
  deriving DecidableEq, Repr

/-- The filter of extract_special_unique_cell: cells whose metadata name
equals the requested name and whose deletable metadata is falsy. -/
def special_cells (ipynb : Ipynb) (name : String) : List Cell :=
  ipynb.cells.filter
    (fun c => decide (c.meta_name = some name) && ! c.deletable_or_true)

/-- Embeds extract_special_unique_cell: KeyError when no cell matches,
ValueError when several match, otherwise the unique matching cell. -/
def extract_special_unique_cell (ipynb : Ipynb) (name : String) :
    Except ExcClass Cell :=
  match special_cells ipynb name with
  | [] => .error .KeyError
  | [c] => .ok c
  | _ :: _ :: _ => .error .ValueError

/- ### Evaluation cases and the result classifier
(judge_util.py lines 141 to 144, 264 to 270, 421 to 498). -/

/-- One test-case instance as the classifier observes it: the encoded
method name and the three tag attributes.  Python compares test instances
by identity; distinct cases are embedded as structurally distinct values. -/
structure TestCase : Type where
  methodName : String
  ok_tags : List EvaluationTag
  fail_tags : List EvaluationTag
  error_tag_rules : List (ExcClass × EvaluationTag)
  deriving DecidableEq, Repr

/-- Embeds _decode_method_name: everything after the first underscore.
Names produced by _encode_method_name always contain an underscore; on a
name without one the source would raise IndexError, and this embedding
returns the empty string. -/
def _decode_method_name (s : String) : String :=
  String.mk ((s.data.dropWhile (fun c => decide (c ≠ '_'))).drop 1)

inductive ResultStatus : Type
  | PASS
  | FAIL
  | ERROR
  | UNKNOWN
  deriving DecidableEq, Repr

/-- The lowercase status name used by to_json. -/
def ResultStatus.lower : ResultStatus → String
  | .PASS => "pass"
  | .FAIL => "fail"
  | .ERROR => "error"
  | .UNKNOWN => "unknown"

/-- The JudgeRecord named tuple of JudgeTestResult. -/
structure JudgeRecord : Type where
  name : String
  status : ResultStatus
  tags : List EvaluationTag
  err : String
  msg : String
  deriving DecidableEq, Repr

/-- The recording state of a JudgeTestResult: run_tests and the success
set are maintained by the overridden startTest and addSuccess, failures
and errors are the lists of pairs of test and formatted text appended by
the base class, exc_info is the dict filled by the overridden addError
with the class of the raised exception. -/
structure JudgeTestResultState : Type where
  run_tests : List TestCase
  successes : List TestCase
  failures : List (TestCase × String)
  errors : List (TestCase × String)
  exc_info : List (TestCase × ExcClass)
  deriving DecidableEq, Repr

/-- The module-level _message_log dict of judge_util.py, keyed by test
case. -/
abbrev MessageLog : Type := List (TestCase × String)

/-- The record built by one iteration of the loop in to_table.  The
stage_name parameter embeds the optional dict from test classes to stage
names; the source indexes exc_info directly, which is always defined for
a test recorded in errors because addError fills both, so the fallback to
the empty rule set below is unreachable for recorded states. -/
def record_of (st : JudgeTestResultState) (log : MessageLog)
    (stage_name : Option (TestCase → String)) (t : TestCase) : JudgeRecord :=
  let n0 := _decode_method_name t.methodName
  let n := match stage_name with
    | none => n0
    | some f => f t ++ "." ++ n0
  let msg := (pyDict.get? log t).getD ""
  if t ∈ st.successes then
    ⟨n, .PASS, t.ok_tags, "", msg⟩
  else
    match pyDict.get? (pyDict.ofPairs st.failures) t with
    | some e => ⟨n, .FAIL, t.fail_tags, e, msg⟩
    | none =>
      match pyDict.get? (pyDict.ofPairs st.errors) t with
      | some e =>
        let tags := match pyDict.get? st.exc_info t with
          | some c => (t.error_tag_rules.filter (fun rule => pyIssubclass c rule.1)).map
              (fun rule => rule.2)
          | none => []
        ⟨n, .ERROR, tags, e, msg⟩
      | none => ⟨n, .UNKNOWN, [], "", ""⟩

/-- Embeds JudgeTestResult.to_table: one record per started test, in the
order the tests were started. -/
def to_table (st : JudgeTestResultState) (log : MessageLog)
    (stage_name : Option (TestCase → String)) : List JudgeRecord :=
  st.run_tests.map (record_of st log stage_name)

/-- A row of the JSON rendering: the record with the status name lowered;
tag objects stay fully expanded. -/
structure JsonRow : Type where
  name : String
  status : String
  tags : List EvaluationTag
  err : String
  msg : String
  deriving DecidableEq, Repr

/-- Embeds JudgeTestResult.to_json: the rows of to_table with the status
replaced by its lowercase name. -/
def to_json (st : JudgeTestResultState) (log : MessageLog) : List JsonRow :=
  (to_table st log none).map (fun r => ⟨r.name, r.status.lower, r.tags, r.err, r.msg⟩)

/-- Embeds the row list of render_summary_table: the table body joins one
tr element per record; this embedding keeps the rows as a list of
strings. -/
def render_summary_trs (records : List JudgeRecord) : List String :=
  records.map (fun r =>
    "<tr><td><code>" ++ r.name ++ "</code></td><td>" ++ r.status.lower ++
      "</td><td></td></tr>")

/- ### The run model: the events a grading run feeds into a
JudgeTestResult and the message log (judge_util.py lines 353 to 356, 440
to 460, 561 to 572). -/

inductive RunEvent : Type
  | startTest (t : TestCase)
  | addSuccess (t : TestCase)
  | addFailure (t : TestCase) (e : String)
  | addError (t : TestCase) (e : String) (c : ExcClass)
  | setMessage (t : TestCase) (m : String)
  deriving DecidableEq, Repr

/-- The mutable state during a run: the recording result object and the
module-level message log. -/
structure RunnerState : Type where
  result : JudgeTestResultState
  log : MessageLog

/-- One recording step: startTest appends to run_tests, addSuccess adds to
the success set and pops the message of the test, addFailure and addError
append the formatted pair, addError also stores the raised class in
exc_info, and set_unsuccessful_message writes the message log. -/
def stepEvent (s : RunnerState) : RunEvent → RunnerState
  | .startTest t =>
    { s with result := { s.result with run_tests := s.result.run_tests ++ [t] } }
  | .addSuccess t =>
    { result := { s.result with successes :=
        if t ∈ s.result.successes then s.result.successes else s.result.successes ++ [t] },
      log := pyDict.pop s.log t }
  | .addFailure t e =>
    { s with result := { s.result with failures := s.result.failures ++ [(t, e)] } }
  | .addError t e c =>
    { s with result := { s.result with
        errors := s.result.errors ++ [(t, e)],
        exc_info := pyDict.insert s.result.exc_info t c } }
  | .setMessage t m =>
    { s with log := pyDict.insert s.log t m }

def runEvents (s : RunnerState) (events : List RunEvent) : RunnerState :=
  events.foldl stepEvent s

/-- The JudgeTestResult state of a fresh result object. -/
def initResultState : JudgeTestResultState :=
  ⟨[], [], [], [], []⟩

/-- Embeds unittest_main restricted to its grading semantics: the global
message log is reset to the empty dict (its previous value, passed as the
first argument, is discarded by the assignment at the top of the source),
the stage runs producing recording events, and the result table is read
off the final state. -/
def unittest_main (_message_log_prev : MessageLog) (events : List RunEvent) :
    RunnerState × List JudgeRecord :=
  let s := runEvents ⟨initResultState, []⟩ events
  (s, to_table s.result s.log none)

/- ### Stages (judge_util.py lines 20 to 28, 146 to 216) and the score
validation of the configuration build (build_formatted.py lines 96 to
107). -/

inductive ExerciseStyle : Type
  | AS_IS
  | FORMATTED
  deriving DecidableEq, Repr

/-- Embeds ExerciseStyle.submission_filename. -/
def ExerciseStyle.submission_filename : ExerciseStyle → String
  | .AS_IS => "submission.ipynb"
  | .FORMATTED => "submission.py"

/-- The class attributes of a JudgeTestStage that the configuration build
and the judge-setting generator read.  The name is optional at declaration
time; interpret_testcode replaces a missing name by the class name. -/
structure Stage : Type where
  name : Option String
  mode : String
  score : Option Int
  unsuccessful_score : Option Int
  required_files : List String
  exercise_style : ExerciseStyle
  deriving DecidableEq, Repr

/-- Embeds teststage: builds a fresh stage class, sets the mode from the
exercise style, copies the required files, and stores the scores without
any validation.  The source body contains no raise statement and no
assertion, so the declaration always completes; the exec_answer branch
only rebinds lifecycle hooks and does not affect any field modelled
here. -/
def teststage (name : Option String) (score : Option Int)
    (unsuccessful_score : Option Int) (required_files : Option (List String))
    (exercise_style : ExerciseStyle) : Stage :=
  { name := name,
    mode := match exercise_style with
      | .AS_IS => "separate"
      | .FORMATTED => "append",
    score := score,
    unsuccessful_score := unsuccessful_score,
    required_files := match required_files with
      | none => []
      | some l => l,
    exercise_style := exercise_style }

/-- One score field passes the first assertion of interpret_testcode_cells
when it is None or a non-negative integer. -/
def score_field_ok : Option Int → Bool
  | none => true
  | some s => decide (0 ≤ s)

/-- Embeds the per-stage score validation of interpret_testcode_cells
(build_formatted.py lines 101 to 105): both score fields must be None or
non-negative, and when both are integers the score must dominate the
unsuccessful score; the build fails with an assertion violation exactly
when this returns false. -/
def interpret_score_check (stage : Stage) : Bool :=
  score_field_ok stage.score && score_field_ok stage.unsuccessful_score &&
    match stage.score, stage.unsuccessful_score with
    | some s, some u => decide (u ≤ s)
    | _, _ => true

/-- Embeds the renaming of interpret_testcode: a stage declared without a
name receives the name of its binding in the test module. -/
def interpret_stage_name (class_name : String) (stage : Stage) : Stage :=
  match stage.name with
  | none => { stage with name := some class_name }
  | some _ => stage

/- ### The judge-setting generator (judge_setting.py lines 27 to 68). -/

/-- The stage name as the generator reads it.  At generation time every
stage has been named by interpret_testcode; a missing name is mapped to
the empty string, a case the build cannot produce. -/
def stage_name_str (stage : Stage) : String :=
  stage.name.getD ""

/-- The two outcome keys of the transition function: the singleton tuple
containing the string pass, and the string otherwise. -/
inductive TransitionOutcome : Type
  | passTuple
  | otherwiseKey
  deriving DecidableEq, Repr

/-- The runner descriptor of a state entry. -/
structure RunnerDescriptor : Type where
  runner_name : String
  runner_version : String
  evaluation_style : String
  deriving DecidableEq, Repr

/-- One entry of the states map of the evaluation block. -/
structure JudgeStateEntry : Type where
  runner : RunnerDescriptor
  time_limit : Int
  required_files : List String
  deriving DecidableEq, Repr

/-- Embeds the states dict comprehension of generate_judge_setting: keyed
by stage name, each entry carrying the fixed runner descriptor with the
stage mode as evaluation style, the time limit, and the required files
with judge_util.py prepended. -/
def judge_states (time_limit : Int) (test_stages : List Stage) :
    List (String × JudgeStateEntry) :=
  pyDict.ofPairs (test_stages.map (fun stage =>
    (stage_name_str stage,
      ⟨⟨"test_runner_py310_unittest.py", "", stage.mode⟩,
        time_limit,
        "judge_util.py" :: stage.required_files⟩)))

/-- Embeds the transition loop of generate_judge_setting: for each stage,
the pass outcome leads to the next stage name, or to the terminal dollar
state for the last stage, carrying the stage score; the otherwise outcome
leads to the terminal state carrying the unsuccessful score. -/
def judge_transitions : List Stage → List ((String × TransitionOutcome) × (String × Option Int))
  | [] => []
  | stage :: rest =>
    ((stage_name_str stage, .passTuple),
      ((match rest with
        | [] => "$"
        | next :: _ => stage_name_str next), stage.score)) ::
    ((stage_name_str stage, .otherwiseKey), ("$", stage.unsuccessful_score)) ::
    judge_transitions rest

/-- The evaluation block of the generated judge setting. -/
structure JudgeEvaluation : Type where
  initial_state : String
  states : List (String × JudgeStateEntry)
  transition_function : List ((String × TransitionOutcome) × (String × Option Int))
  deriving DecidableEq, Repr

/-- The generated judge setting, with the constant envelope fields kept
literal.  The environment and limit parameters are resolved from the
module-level judge_parameters before the body runs; they enter here as
arguments. -/
structure JudgeSetting : Type where
  schema_version : String
  exercise_name : String
  exercise_version : String
  preprocess_rename : String
  environment_name : String
  sandbox_name : String
  evaluation : JudgeEvaluation
  deriving DecidableEq, Repr

/-- Embeds generate_judge_setting.  The source indexes the first stage of
the list for the initial state, which raises IndexError on an empty list;
the empty case below yields the empty initial name and is excluded by
hypothesis in the theorems. -/
def generate_judge_setting (exercise_key exercise_version : String)
    (environment : String) (time_limit : Int)
    (test_stages : List Stage) (exercise_style : ExerciseStyle) : JudgeSetting :=
  { schema_version := "v1.0",
    exercise_name := exercise_key,
    exercise_version := exercise_version,
    preprocess_rename := exercise_style.submission_filename,
    environment_name := environment,
    sandbox_name := "Firejail",
    evaluation :=
      { initial_state := match test_stages with
          | [] => ""
          | stage :: _ => stage_name_str stage,
        states := judge_states time_limit test_stages,
        transition_function := judge_transitions test_stages } }

/- ### The tag-setting functions (judge_util.py lines 273 to 303). -/

/-- The argument of set_ok_tag, set_fail_tag and set_error_tag: the
Python value None, an EvaluationTag instance, a string, any other
hashable value, or an unhashable value.  A hashable value of another
type fails the isinstance test and then the membership test in the
predefined registry, exactly as a string that names no predefined tag
does; an unhashable value (a list, for instance) instead makes the
membership test itself raise TypeError, because dict membership hashes
the key. -/
inductive TagArg : Type
  | noneArg
  | tagArg (t : EvaluationTag)
  | nameArg (s : String)
  | otherArg
  | unhashableArg
  deriving DecidableEq, Repr

/-- The tag attributes of one evaluation case, as the three setter
functions observe and update them.  The class attributes of
JudgeTestCaseBase give the initial values: empty, empty, empty dict. -/
structure CaseTagState : Type where
  ok_tags : List EvaluationTag
  fail_tags : List EvaluationTag
  error_tag_rules : List (ExcClass × EvaluationTag)
  deriving DecidableEq, Repr

def initialCaseTagState : CaseTagState :=
  ⟨[], [], []⟩

/-- Embeds set_ok_tag: the updated attributes paired with the class of the
raised exception, none when the call returns normally.  On a raise the
attributes are returned unchanged, reflecting that the source raises
before any assignment.  A hashable value of an unexpected type falls
through the membership test to the final ValueError; an unhashable value
makes the membership test itself raise TypeError. -/
def set_ok_tag (self : CaseTagState) (ok_tag : TagArg) :
    CaseTagState × Option ExcClass :=
  match ok_tag with
  | .noneArg => ({ self with ok_tags := [] }, none)
  | .tagArg t => ({ self with ok_tags := [t] }, none)
  | .nameArg s =>
    match pyDict.get? predefined_map s with
    | some t => ({ self with ok_tags := [t] }, none)
    | none => (self, some .ValueError)
  | .otherArg => (self, some .ValueError)
  | .unhashableArg => (self, some .TypeError)

/-- Embeds set_fail_tag, structurally identical to set_ok_tag on the
fail_tags attribute. -/
def set_fail_tag (self : CaseTagState) (fail_tag : TagArg) :
    CaseTagState × Option ExcClass :=
  match fail_tag with
  | .noneArg => ({ self with fail_tags := [] }, none)
  | .tagArg t => ({ self with fail_tags := [t] }, none)
  | .nameArg s =>
    match pyDict.get? predefined_map s with
    | some t => ({ self with fail_tags := [t] }, none)
    | none => (self, some .ValueError)
  | .otherArg => (self, some .ValueError)
  | .unhashableArg => (self, some .TypeError)

/-- Embeds set_error_tag: first the guard raising ValueError when the
exception argument is not a subclass of Exception, then the rule update:
None pops the rule of the class, a tag or the name of a predefined tag
writes the rule through a dict-literal update, any other hashable value
falls through the membership test to the final ValueError, and an
unhashable value makes the membership test raise TypeError. -/
def set_error_tag (self : CaseTagState) (error_tag : TagArg)
    (exception : ExcClass) : CaseTagState × Option ExcClass :=
  if ! pyIssubclass exception .Exception then
    (self, some .ValueError)
  else
    match error_tag with
    | .noneArg =>
      ({ self with error_tag_rules := pyDict.pop self.error_tag_rules exception }, none)
    | .tagArg t =>
      ({ self with error_tag_rules := pyDict.insert self.error_tag_rules exception t }, none)
    | .nameArg s =>
      match pyDict.get? predefined_map s with
      | some t =>
        ({ self with error_tag_rules := pyDict.insert self.error_tag_rules exception t }, none)
      | none => (self, some .ValueError)
    | .otherArg => (self, some .ValueError)
    | .unhashableArg => (self, some .TypeError)

/-- One call to one of the three setters, as performed by a case body or
by the wrappers installed by check_method and test_method. -/
inductive TagCall : Type
  | callOk (a : TagArg)
  | callFail (a : TagArg)
  | callError (a : TagArg) (e : ExcClass)
  deriving DecidableEq, Repr

/-- The attribute state after one call; a raising call leaves the
attributes unchanged. -/
def applyTagCall (st : CaseTagState) : TagCall → CaseTagState
  | .callOk a => (set_ok_tag st a).1
  | .callFail a => (set_fail_tag st a).1
  | .callError a e => (set_error_tag st a e).1

def applyTagCalls (st : CaseTagState) (calls : List TagCall) : CaseTagState :=
  calls.foldl applyTagCall st

/- ### Definitions written from the words of the specification, for
comparison with the source embeddings above. -/

/-- Modelled from the spec: a control character in the sense of the claim
about tag format invariants, namely a character with code below thirty-two
or the delete character. -/
def spec_is_control_char (c : Char) : Bool :=
  decide (c.toNat < 32) || decide (c.toNat = 127)

/-- Modelled from the spec: the description constraint as the claim words
it, namely non-empty and free of control characters. -/
def spec_description_ok (s : String) : Bool :=
  decide (1 ≤ s.data.length) && s.data.all (fun c => ! spec_is_control_char c)

/-- The last tag of the list bearing the given name, the value the claim
about duplicate names is amended to. -/
def lastTagNamed (tags : List EvaluationTag) (n : String) : Option EvaluationTag :=
  tags.reverse.find? (fun t => decide (t.name = n))

/- ### Witness fixtures: concrete inputs used by the witness and
counterexample theorems below. -/

/-- A case registering three error-tag rules, used by the C1 witness. -/
def tC1 : TestCase :=
  ⟨"test_w", [], [],
   [(.LookupError, ⟨"L1", "lookup", "#111111", "#eeeeee", true⟩),
    (.ValueError, ⟨"V1", "value", "#222222", "#dddddd", true⟩),
    (.Exception, ⟨"E1", "any", "#333333", "#cccccc", true⟩)]⟩

/-- A recorded state in which tC1 raised KeyError, used by the C1 witness. -/
def stC1 : JudgeTestResultState :=
  ⟨[tC1], [], [], [(tC1, "KeyError trace")], [(tC1, .KeyError)]⟩

/-- A declared case of a stage whose setup failed before it started. -/
def tC2 : TestCase :=
  ⟨"test_a", [], [], []⟩

/-- A recorded state in which tC2 was started but never classified. -/
def stC2 : JudgeTestResultState :=
  ⟨[tC2], [], [], [], []⟩

/-- First stage of the C5 witness configuration. -/
def stageW1 : Stage :=
  teststage (some "s1") (some 1) (some 0) none .FORMATTED

/-- Second stage of the C5 witness configuration. -/
def stageW2 : Stage :=
  teststage (some "s2") (some 5) (some 0) (some ["lib.py"]) .FORMATTED

/-- The case of the C8 witness run. -/
def tC8 : TestCase :=
  ⟨"test_m", [], [], []⟩

/-- A cell matching the answer-cell metadata. -/
def cellW1 : Cell :=
  ⟨"x = 1", some "answer_cell", some false⟩

/-- A second cell matching the same metadata. -/
def cellW2 : Cell :=
  ⟨"x = 2", some "answer_cell", some false⟩

/-- A submission document with two answer cells, used against C9. -/
def ipynbTwo : Ipynb :=
  ⟨[cellW1, cellW2]⟩

/-- A submission document with no cells, used by the C9 witness. -/
def ipynbEmpty : Ipynb :=
  ⟨[]⟩

/- ### Helper lemmas about the dict model. -/

theorem pyDict.get?_insert {κ α : Type} [DecidableEq κ] (d : List (κ × α)) (k j : κ) (v : α) :
    pyDict.get? (pyDict.insert d k v) j = if j = k then some v else pyDict.get? d j := by
  induction d with
  | nil =>
    by_cases h : j = k
    · subst h; simp [pyDict.insert, pyDict.get?]
    · simp [pyDict.insert, pyDict.get?, h, Ne.symm h]
  | cons p d ih =>
    by_cases hp : p.1 = k
    · by_cases h : j = k
      · subst h; simp [pyDict.insert, pyDict.get?, hp]
      · simp [pyDict.insert, pyDict.get?, hp, h, Ne.symm h,
          show p.1 ≠ j from by rw [hp]; exact Ne.symm h]
    · by_cases h : j = k
      · subst h; simp [pyDict.insert, pyDict.get?, hp, ih,
          show p.1 ≠ j from hp]
      · simp [pyDict.insert, pyDict.get?, hp, ih, h]

theorem pyDict.get?_ofPairs {κ α : Type} [DecidableEq κ] (l : List (κ × α)) (k : κ) :
    pyDict.get? (pyDict.ofPairs l) k =
      (l.reverse.find? (fun p => decide (p.1 = k))).map (fun p => p.2) := by
  induction l using List.reverseRecOn with
  | nil => simp [pyDict.ofPairs, pyDict.get?]
  | append_singleton l p ih =>
    rw [pyDict.ofPairs, List.foldl_append, List.foldl_cons, List.foldl_nil]
    rw [show List.foldl (fun d p => pyDict.insert d p.1 p.2) [] l = pyDict.ofPairs l from rfl]
    rw [pyDict.get?_insert, List.reverse_append]
    simp only [List.reverse_cons, List.reverse_nil, List.nil_append, List.singleton_append]
    by_cases hp : p.1 = k
    · rw [List.find?_cons_of_pos _ (by simpa using hp), if_pos hp.symm]
      rfl
    · rw [List.find?_cons_of_neg _ (by simpa using hp),
        if_neg (show ¬ k = p.1 from fun h => hp h.symm), ih]

theorem pyDict.get?_ofPairs_isSome_iff {κ α : Type} [DecidableEq κ] (l : List (κ × α)) (k : κ) :
    (pyDict.get? (pyDict.ofPairs l) k).isSome = true ↔ ∃ v, (k, v) ∈ l := by
  rw [pyDict.get?_ofPairs]
  constructor
  · intro hs
    rcases hf : l.reverse.find? (fun p => decide (p.1 = k)) with _ | p
    · rw [hf] at hs; simp at hs
    · have hp : p.1 = k := by simpa using List.find?_some hf
      have hm : p ∈ l := List.mem_reverse.mp (List.mem_of_find?_eq_some hf)
      refine ⟨p.2, ?_⟩
      have hpk : (k, p.2) = p := by
        rcases p with ⟨p1, p2⟩; simp at hp; simp [hp]
      rw [hpk]; exact hm
  · rintro ⟨v, hv⟩
    have hex : ∃ x, x ∈ l.reverse ∧ (fun p => decide (p.1 = k)) x = true :=
      ⟨(k, v), List.mem_reverse.mpr hv, by simp⟩
    have hs := List.find?_isSome.mpr hex
    rcases hf : l.reverse.find? (fun p => decide (p.1 = k)) with _ | p
    · rw [hf] at hs; simp at hs
    · simp [hf]

theorem pyDict.get?_ofPairs_eq_none_iff {κ α : Type} [DecidableEq κ] (l : List (κ × α)) (k : κ) :
    pyDict.get? (pyDict.ofPairs l) k = none ↔ ¬ ∃ v, (k, v) ∈ l := by
  rw [← pyDict.get?_ofPairs_isSome_iff]
  cases pyDict.get? (pyDict.ofPairs l) k <;> simp

theorem pyDict.mem_insert {κ α : Type} [DecidableEq κ] (d : List (κ × α)) (k : κ) (v : α)
    (p : κ × α) : p ∈ pyDict.insert d k v → p ∈ d ∨ p = (k, v) := by
  induction d with
  | nil => simp [pyDict.insert]
  | cons q d ih =>
    intro h
    by_cases hq : q.1 = k
    · simp only [pyDict.insert, if_pos hq] at h
      rcases List.mem_cons.mp h with h2 | h2
      · right; exact h2
      · left; exact List.mem_cons_of_mem _ h2
    · simp only [pyDict.insert, if_neg hq] at h
      rcases List.mem_cons.mp h with h2 | h2
      · left; simp [h2]
      · rcases ih h2 with h3 | h3
        · left; exact List.mem_cons_of_mem _ h3
        · right; exact h3

theorem pyDict.mem_pop {κ α : Type} [DecidableEq κ] (d : List (κ × α)) (k : κ)
    (p : κ × α) : p ∈ pyDict.pop d k → p ∈ d := by
  induction d with
  | nil => simp [pyDict.pop]
  | cons q d ih =>
    intro h
    by_cases hq : q.1 = k
    · simp only [pyDict.pop, if_pos hq] at h
      exact List.mem_cons_of_mem _ h
    · simp only [pyDict.pop, if_neg hq] at h
      rcases List.mem_cons.mp h with h2 | h2
      · simp [h2]
      · exact List.mem_cons_of_mem _ (ih h2)

theorem pyDict.find?_key_of_nodup {κ α : Type} [DecidableEq κ] (m : List (κ × α)) (k : κ) (v : α) :
    (m.map (fun p => p.1)).Nodup → (k, v) ∈ m →
      m.find? (fun p => decide (p.1 = k)) = some (k, v) := by
  induction m with
  | nil => simp
  | cons q m ih =>
    intro hnd hm
    rw [List.map_cons, List.nodup_cons] at hnd
    by_cases hq : q.1 = k
    · have hqv : q = (k, v) := by
        rcases List.mem_cons.mp hm with h | h
        · exact h.symm
        · exact absurd (hq ▸ (List.mem_map.mpr ⟨(k, v), h, rfl⟩)) hnd.1
      rw [List.find?_cons_of_pos _ (by simpa using hq), hqv]
    · rw [List.find?_cons_of_neg _ (by simpa using hq)]
      rcases List.mem_cons.mp hm with h | h
      · exact absurd (by rw [← h]) hq
      · exact ih hnd.2 h

theorem pyDict.get?_ofPairs_of_nodup {κ α : Type} [DecidableEq κ] (l : List (κ × α)) (k : κ)
    (v : α) : (l.map (fun p => p.1)).Nodup → (k, v) ∈ l →
      pyDict.get? (pyDict.ofPairs l) k = some v := by
  intro hnd hm
  rw [pyDict.get?_ofPairs]
  rw [pyDict.find?_key_of_nodup l.reverse k v (by simpa using hnd) (List.mem_reverse.mpr hm)]
  rfl

/- ### Helper lemmas about the regular-expression predicates. -/

theorem re_fullmatch_name_iff (s : String) :
    re_fullmatch_name s = true ↔
      1 ≤ s.data.length ∧ s.data.length ≤ 16 ∧ ∀ c ∈ s.data, re_name_char c = true := by
  simp [re_fullmatch_name, List.all_eq_true, and_assoc]

theorem re_fullmatch_text_iff (s : String) :
    re_fullmatch_text s = true ↔
      s.data ≠ [] ∧ ∀ c ∈ s.data, re_text_excluded_char c = false := by
  rw [re_fullmatch_text]
  simp [List.all_eq_true, ← List.length_pos_iff_ne_nil, Nat.lt_iff_add_one_le]

theorem re_fullmatch_color_iff (s : String) :
    re_fullmatch_color s = true ↔
      ∃ rest, s.data = '#' :: rest ∧ rest.length = 6 ∧ ∀ c ∈ rest, re_hex_char c = true := by
  rw [re_fullmatch_color]
  rcases hd : s.data with _ | ⟨c, rest⟩
  · simp [hd]
  · simp only [Bool.and_eq_true, decide_eq_true_eq, List.all_eq_true]
    constructor
    · rintro ⟨⟨hc, hlen⟩, hall⟩
      exact ⟨rest, by rw [hc], hlen, hall⟩
    · rintro ⟨rest2, he, hlen, hall⟩
      rcases List.cons_eq_cons.mp he with ⟨hc, hr⟩
      subst hr
      exact ⟨⟨hc, hlen⟩, hall⟩

theorem except_ok_ite {ε α : Type} (b : Bool) (e : ε) (x : α) :
    except_ok (if b = true then Except.error e else Except.ok x) = ! b := by
  cases b <;> rfl

/- ### Claim C6. -/

theorem getitem_init_lastTag (tags : List EvaluationTag) (n : String) :
    pyDict.get? (pyDict.ofPairs (tags.map (fun t => (t.name, t)))) n = lastTagNamed tags n := by
  rw [pyDict.get?_ofPairs, ← List.map_reverse, List.find?_map, Option.map_map, lastTagNamed]
  have : ((fun p : String × EvaluationTag => p.2) ∘ fun t : EvaluationTag => (t.name, t)) =
      fun t : EvaluationTag => t := rfl
  rw [this]
  simp
  rfl

/-- Claim C6, counterexample: two tags sharing the name X, on which the
constructor of the tag registry nevertheless completes normally, because
the source builds the name map by a dict comprehension that silently keeps
the later tag and never raises. -/
theorem C6_counterexample :
    (⟨"X", "first", "#333333", "#cccccc", true⟩ : EvaluationTag).name =
      (⟨"X", "second", "#333333", "#cccccc", true⟩ : EvaluationTag).name ∧
    except_ok (EvaluationTagMapping.init
      [⟨"X", "first", "#333333", "#cccccc", true⟩,
       ⟨"X", "second", "#333333", "#cccccc", true⟩]) = true :=
  ⟨rfl, rfl⟩

/-- Claim C6 as amended: constructing an EvaluationTagMapping never fails,
whatever the tag sequence; when names collide the name map binds the name
to the last tag of the sequence bearing it. -/
theorem C6_registry_construction : ∀ (tags : List EvaluationTag),
    except_ok (EvaluationTagMapping.init tags) = true ∧
    ∀ m, EvaluationTagMapping.init tags = Except.ok m →
      ∀ n, EvaluationTagMapping.getitem m n = lastTagNamed tags n := by
  intro tags
  refine ⟨rfl, ?_⟩
  intro m hm n
  have hme : m = pyDict.ofPairs (tags.map (fun t => (t.name, t))) := by
    rw [EvaluationTagMapping.init] at hm
    exact (Except.ok.injEq _ _).mp hm.symm
  rw [hme, EvaluationTagMapping.getitem, getitem_init_lastTag]

/-- Claim C6, witness: the amended theorem applied to the two colliding
tags of the counterexample input resolves the name X to the second tag. -/
theorem C6_witness :
    EvaluationTagMapping.getitem
      (pyDict.ofPairs
        (([⟨"X", "first", "#333333", "#cccccc", true⟩,
           ⟨"X", "second", "#333333", "#cccccc", true⟩] : List EvaluationTag).map
          (fun t => (t.name, t)))) "X" =
      some ⟨"X", "second", "#333333", "#cccccc", true⟩ := by
  have h := (C6_registry_construction
    [⟨"X", "first", "#333333", "#cccccc", true⟩,
     ⟨"X", "second", "#333333", "#cccccc", true⟩]).2 _ rfl "X"
  rw [h]
  rfl

/- ### Claim C7. -/

/-- Claim C7, counterexample: a description containing a horizontal tab, a
control character, which the constructor nevertheless accepts, because the
text pattern of the source excludes only six specific control
characters. -/
theorem C7_counterexample :
    except_ok (EvaluationTag.new "T" "a\tb" "#333333" "#cccccc" true) = true ∧
    spec_description_ok "a\tb" = false :=
  ⟨rfl, rfl⟩

/-- Claim C7 as amended: construction of an EvaluationTag succeeds exactly
when the name is one to sixteen alphanumeric characters, the description
is non-empty and free of the six excluded control characters (bell,
backspace, form feed, line feed, carriage return, vertical tab; other
control characters are allowed), and both colors are a number sign
followed by six hexadecimal digits; visible is a boolean by typing. -/
theorem C7_tag_validation : ∀ (name description background_color font_color : String)
    (visible : Bool),
    except_ok (EvaluationTag.new name description background_color font_color visible) = true ↔
      ((1 ≤ name.data.length ∧ name.data.length ≤ 16 ∧ ∀ c ∈ name.data, re_name_char c = true) ∧
       (description.data ≠ [] ∧ ∀ c ∈ description.data, re_text_excluded_char c = false) ∧
       (∃ r1, background_color.data = '#' :: r1 ∧ r1.length = 6 ∧
         ∀ c ∈ r1, re_hex_char c = true) ∧
       (∃ r2, font_color.data = '#' :: r2 ∧ r2.length = 6 ∧
         ∀ c ∈ r2, re_hex_char c = true)) := by
  intro name description bg fc vis
  rw [EvaluationTag.new, except_ok_ite]
  simp only [Bool.not_or, Bool.not_not, Bool.and_eq_true]
  rw [re_fullmatch_name_iff, re_fullmatch_text_iff, re_fullmatch_color_iff,
    re_fullmatch_color_iff]
  tauto

/-- Claim C7, witness: the amended theorem applied to the fields of the
predefined tag CO, recovering that its construction succeeds. -/
theorem C7_witness :
    except_ok (EvaluationTag.new "CO" "Correct Output" "#7fbf7f" "#dfffdf" true) = true :=
  (C7_tag_validation "CO" "Correct Output" "#7fbf7f" "#dfffdf" true).mpr
    ⟨⟨by decide, by decide, by decide⟩,
     ⟨by decide, by decide⟩,
     ⟨['7', 'f', 'b', 'f', '7', 'f'], by decide, by decide, by decide⟩,
     ⟨['d', 'f', 'f', 'f', 'd', 'f'], by decide, by decide, by decide⟩⟩

/- ### Claim C9. -/

/-- Claim C9, counterexample: a document with two cells matching the
answer-cell metadata; extraction raises ValueError, which is not a lookup
error in the builtin exception hierarchy, against the claim that both the
zero-match and the many-match case raise a lookup error. -/
theorem C9_counterexample :
    extract_special_unique_cell ipynbTwo "answer_cell" = Except.error ExcClass.ValueError ∧
    isLookupError ExcClass.ValueError = false :=
  ⟨rfl, rfl⟩

/-- Claim C9 as amended: extraction raises KeyError, a lookup error, when
no cell carries the requested name with non-deletable metadata; it raises
ValueError, which is not a lookup error, when several such cells exist;
and it returns the unique matching cell otherwise. -/
theorem C9_unique_cell_extraction : ∀ (ipynb : Ipynb) (name : String),
    (special_cells ipynb name = [] →
      extract_special_unique_cell ipynb name = Except.error ExcClass.KeyError ∧
      isLookupError ExcClass.KeyError = true) ∧
    (∀ c, special_cells ipynb name = [c] →
      extract_special_unique_cell ipynb name = Except.ok c) ∧
    (2 ≤ (special_cells ipynb name).length →
      extract_special_unique_cell ipynb name = Except.error ExcClass.ValueError ∧
      isLookupError ExcClass.ValueError = false) := by
  intro ipynb name
  refine ⟨?_, ?_, ?_⟩
  · intro h
    rw [extract_special_unique_cell, h]
    exact ⟨rfl, rfl⟩
  · intro c h
    rw [extract_special_unique_cell, h]
  · intro h2
    rcases hs : special_cells ipynb name with _ | ⟨a, _ | ⟨b, tl⟩⟩
    · rw [hs] at h2; simp at h2
    · rw [hs] at h2; simp at h2
    · rw [extract_special_unique_cell, hs]
      exact ⟨rfl, rfl⟩

/-- Claim C9, witness: the amended theorem applied to the empty document,
where extraction raises the lookup error KeyError. -/
theorem C9_witness :
    extract_special_unique_cell ipynbEmpty "answer_cell" = Except.error ExcClass.KeyError ∧
    isLookupError ExcClass.KeyError = true :=
  (C9_unique_cell_extraction ipynbEmpty "answer_cell").1 rfl

/- ### Claim C4. -/

/-- Claim C4: for all non-negative integer score pairs, the stage
declaration itself completes and stores the given fields unchanged, and
the score assertion of the configuration build fails exactly when the
unsuccessful score exceeds the score. -/
theorem C4_score_ordering : ∀ (s u : Nat),
    (teststage none (some (s : Int)) (some (u : Int)) none .FORMATTED).score = some (s : Int) ∧
    (teststage none (some (s : Int)) (some (u : Int)) none
      .FORMATTED).unsuccessful_score = some (u : Int) ∧
    (interpret_score_check
        (teststage none (some (s : Int)) (some (u : Int)) none .FORMATTED) = false ↔ s < u) := by
  intro s u
  refine ⟨rfl, rfl, ?_⟩
  have hred : interpret_score_check
      (teststage none (some (s : Int)) (some (u : Int)) none .FORMATTED) =
      decide ((u : Int) ≤ (s : Int)) := by
    show (score_field_ok (some (s : Int)) && score_field_ok (some (u : Int)) &&
      decide ((u : Int) ≤ (s : Int))) = decide ((u : Int) ≤ (s : Int))
    rw [score_field_ok, score_field_ok,
      decide_eq_true (Int.natCast_nonneg s), decide_eq_true (Int.natCast_nonneg u)]
    simp
  rw [hred]
  simp only [decide_eq_false_iff_not]
  constructor
  · intro h
    omega
  · intro h
    omega

/- ### Helper lemmas about the classifier branches. -/

theorem record_of_pass (st : JudgeTestResultState) (log : MessageLog) (t : TestCase)
    (hs : t ∈ st.successes) :
    record_of st log none t =
      ⟨_decode_method_name t.methodName, .PASS, t.ok_tags, "",
        (pyDict.get? log t).getD ""⟩ := by
  rw [record_of]
  simp [hs]

theorem record_of_fail (st : JudgeTestResultState) (log : MessageLog) (t : TestCase)
    (e : String) (hs : t ∉ st.successes)
    (hf : pyDict.get? (pyDict.ofPairs st.failures) t = some e) :
    record_of st log none t =
      ⟨_decode_method_name t.methodName, .FAIL, t.fail_tags, e,
        (pyDict.get? log t).getD ""⟩ := by
  rw [record_of]
  simp [hs, hf]

theorem record_of_error (st : JudgeTestResultState) (log : MessageLog) (t : TestCase)
    (e : String) (c : ExcClass) (hs : t ∉ st.successes)
    (hf : pyDict.get? (pyDict.ofPairs st.failures) t = none)
    (he : pyDict.get? (pyDict.ofPairs st.errors) t = some e)
    (hc : pyDict.get? st.exc_info t = some c) :
    record_of st log none t =
      ⟨_decode_method_name t.methodName, .ERROR,
        (t.error_tag_rules.filter (fun rule => pyIssubclass c rule.1)).map
          (fun rule => rule.2),
        e, (pyDict.get? log t).getD ""⟩ := by
  rw [record_of]
  simp [hs, hf, he, hc]

theorem record_of_error_status (st : JudgeTestResultState) (log : MessageLog) (t : TestCase)
    (e : String) (hs : t ∉ st.successes)
    (hf : pyDict.get? (pyDict.ofPairs st.failures) t = none)
    (he : pyDict.get? (pyDict.ofPairs st.errors) t = some e) :
    (record_of st log none t).status = .ERROR := by
  rw [record_of]
  simp [hs, hf, he]

theorem record_of_unknown (st : JudgeTestResultState) (log : MessageLog) (t : TestCase)
    (hs : t ∉ st.successes)
    (hf : pyDict.get? (pyDict.ofPairs st.failures) t = none)
    (he : pyDict.get? (pyDict.ofPairs st.errors) t = none) :
    record_of st log none t =
      ⟨_decode_method_name t.methodName, .UNKNOWN, [], "", ""⟩ := by
  rw [record_of]
  simp [hs, hf, he]

theorem record_of_name (st : JudgeTestResultState) (log : MessageLog) (t : TestCase) :
    (record_of st log none t).name = _decode_method_name t.methodName := by
  by_cases hs : t ∈ st.successes
  · rw [record_of_pass st log t hs]
  · rcases hf : pyDict.get? (pyDict.ofPairs st.failures) t with _ | e
    · rcases he : pyDict.get? (pyDict.ofPairs st.errors) t with _ | e
      · rw [record_of_unknown st log t hs hf he]
      · rcases hc : pyDict.get? st.exc_info t with _ | c
        · rw [record_of]
          simp [hs, hf, he, hc]
        · rw [record_of_error st log t e c hs hf he hc]
    · rw [record_of_fail st log t e hs hf]

/- ### Claim C1. -/

/-- Claim C1: for a case that raised an exception of class c, the record
built by to_table carries status ERROR and attaches exactly the tags of
the registered error-tag rules whose exception class is a superclass of c
(in the reflexive sense of the Python builtin issubclass), all matching
rules contributing, in rule-registration order; membership of a tag in
the attached list is equivalent to the existence of a matching rule
carrying it. -/
theorem C1_error_tag_rules : ∀ (st : JudgeTestResultState) (log : MessageLog) (i : Nat)
    (t : TestCase) (c : ExcClass) (e : String),
    st.run_tests.get? i = some t →
    t ∉ st.successes →
    pyDict.get? (pyDict.ofPairs st.failures) t = none →
    pyDict.get? (pyDict.ofPairs st.errors) t = some e →
    pyDict.get? st.exc_info t = some c →
    ∃ r, (to_table st log none).get? i = some r ∧ r.status = ResultStatus.ERROR ∧
      r.tags = (t.error_tag_rules.filter (fun rule => pyIssubclass c rule.1)).map
        (fun rule => rule.2) ∧
      ∀ tg, tg ∈ r.tags ↔ ∃ ec, (ec, tg) ∈ t.error_tag_rules ∧ pyIssubclass c ec = true := by
  intro st log i t c e ht hs hf he hc
  refine ⟨record_of st log none t, ?_, ?_⟩
  · rw [to_table, List.get?_map, ht]
    rfl
  · rw [record_of_error st log t e c hs hf he hc]
    refine ⟨rfl, rfl, ?_⟩
    intro tg
    simp only [List.mem_map, List.mem_filter]
    constructor
    · rintro ⟨rule, ⟨hmem, hsub⟩, heq⟩
      exact ⟨rule.1, by rw [show (rule.1, tg) = rule from by rw [← heq]]; exact hmem, hsub⟩
    · rintro ⟨ec, hmem, hsub⟩
      exact ⟨(ec, tg), ⟨hmem, hsub⟩, rfl⟩

/-- Claim C1, witness: a case with three rules, for LookupError, ValueError
and Exception, raising KeyError; the first and third rule match, in
registration order, the second does not. -/
theorem C1_witness :
    ∃ r, (to_table stC1 [] none).get? 0 = some r ∧ r.status = ResultStatus.ERROR ∧
      r.tags = (tC1.error_tag_rules.filter
        (fun rule => pyIssubclass ExcClass.KeyError rule.1)).map (fun rule => rule.2) ∧
      ∀ tg, tg ∈ r.tags ↔
        ∃ ec, (ec, tg) ∈ tC1.error_tag_rules ∧ pyIssubclass ExcClass.KeyError ec = true :=
  C1_error_tag_rules stC1 [] 0 tC1 ExcClass.KeyError "KeyError trace"
    rfl (by decide) rfl rfl rfl

/- ### Claim C2. -/

/-- Claim C2, counterexample: a run in which a declared case, tC2, was
never started because stage-level setup failed before it; the recording
state is then untouched and to_table returns no record at all, in
particular no UNKNOWN record for the never-started case, against the
claim that every declared case receives a record. -/
theorem C2_counterexample :
    to_table initResultState [] none = [] ∧
    ¬ ∃ r, r ∈ to_table initResultState [] none ∧ r.status = ResultStatus.UNKNOWN := by
  refine ⟨rfl, ?_⟩
  rintro ⟨r, hr, _⟩
  simp [to_table, initResultState] at hr

/-- Claim C2 as amended: every started case receives exactly one record
carrying exactly one of the four statuses, determined by the recorded
outcome: PASS exactly when the case is among the successes, FAIL exactly
when it is not successful but among the recorded failures, ERROR exactly
when it is neither but among the recorded errors, and UNKNOWN exactly
when it was started yet never classified; cases never started receive no
record, and the table, the JSON rendering and the summary rows all carry
exactly one entry per started case. -/
theorem C2_status_classification : ∀ (st : JudgeTestResultState) (log : MessageLog),
    (to_table st log none).length = st.run_tests.length ∧
    (to_json st log).length = st.run_tests.length ∧
    (render_summary_trs (to_table st log none)).length = st.run_tests.length ∧
    ∀ (i : Nat) (t : TestCase), st.run_tests.get? i = some t →
      ∃ r, (to_table st log none).get? i = some r ∧
        (r.status = ResultStatus.PASS ∨ r.status = ResultStatus.FAIL ∨
          r.status = ResultStatus.ERROR ∨ r.status = ResultStatus.UNKNOWN) ∧
        (r.status = ResultStatus.PASS ↔ t ∈ st.successes) ∧
        (r.status = ResultStatus.FAIL ↔ t ∉ st.successes ∧ ∃ e, (t, e) ∈ st.failures) ∧
        (r.status = ResultStatus.ERROR ↔ t ∉ st.successes ∧
          (¬ ∃ e, (t, e) ∈ st.failures) ∧ ∃ e, (t, e) ∈ st.errors) ∧
        (r.status = ResultStatus.UNKNOWN ↔ t ∉ st.successes ∧
          (¬ ∃ e, (t, e) ∈ st.failures) ∧ ¬ ∃ e, (t, e) ∈ st.errors) := by
  intro st log
  refine ⟨by simp [to_table], by simp [to_json, to_table],
    by simp [render_summary_trs, to_table], ?_⟩
  intro i t ht
  refine ⟨record_of st log none t, by rw [to_table, List.get?_map, ht]; rfl, ?_⟩
  by_cases hs : t ∈ st.successes
  · rw [record_of_pass st log t hs]
    refine ⟨Or.inl rfl, iff_of_true rfl hs, ?_, ?_, ?_⟩
    · exact iff_of_false (by simp) (fun h => h.1 hs)
    · exact iff_of_false (by simp) (fun h => h.1 hs)
    · exact iff_of_false (by simp) (fun h => h.1 hs)
  · rcases hf : pyDict.get? (pyDict.ofPairs st.failures) t with _ | e
    · have hfnone : ¬ ∃ e2, (t, e2) ∈ st.failures :=
        (pyDict.get?_ofPairs_eq_none_iff st.failures t).mp hf
      rcases he : pyDict.get? (pyDict.ofPairs st.errors) t with _ | e
      · have henone : ¬ ∃ e2, (t, e2) ∈ st.errors :=
          (pyDict.get?_ofPairs_eq_none_iff st.errors t).mp he
        rw [record_of_unknown st log t hs hf he]
        refine ⟨Or.inr (Or.inr (Or.inr rfl)), ?_, ?_, ?_, ?_⟩
        · exact iff_of_false (by simp) hs
        · exact iff_of_false (by simp) (fun h => hfnone h.2)
        · exact iff_of_false (by simp) (fun h => henone h.2.2)
        · exact iff_of_true rfl ⟨hs, hfnone, henone⟩
      · have heex : ∃ e2, (t, e2) ∈ st.errors :=
          (pyDict.get?_ofPairs_isSome_iff st.errors t).mp (by rw [he]; rfl)
        have hst := record_of_error_status st log t e hs hf he
        refine ⟨Or.inr (Or.inr (Or.inl hst)), ?_, ?_, ?_, ?_⟩
        · exact iff_of_false (by rw [hst]; simp) hs
        · exact iff_of_false (by rw [hst]; simp) (fun h => hfnone h.2)
        · exact iff_of_true hst ⟨hs, hfnone, heex⟩
        · exact iff_of_false (by rw [hst]; simp) (fun h => h.2.2 heex)
    · have hfex : ∃ e2, (t, e2) ∈ st.failures :=
        (pyDict.get?_ofPairs_isSome_iff st.failures t).mp (by rw [hf]; rfl)
      rw [record_of_fail st log t e hs hf]
      refine ⟨Or.inr (Or.inl rfl), ?_, ?_, ?_, ?_⟩
      · exact iff_of_false (by simp) hs
      · exact iff_of_true rfl ⟨hs, hfex⟩
      · exact iff_of_false (by simp) (fun h => h.2.1 hfex)
      · exact iff_of_false (by simp) (fun h => h.2.1 hfex)

/-- Claim C2, witness: a case that was started but never classified, on
which the amended theorem yields an UNKNOWN record at its position. -/
theorem C2_witness :
    ∃ r, (to_table stC2 [] none).get? 0 = some r ∧ r.status = ResultStatus.UNKNOWN := by
  obtain ⟨r, hr, _, _, _, _, hu⟩ := (C2_status_classification stC2 []).2.2.2 0 tC2 rfl
  refine ⟨r, hr, hu.mpr ⟨by simp [stC2], by simp [stC2], by simp [stC2]⟩⟩

/- ### Claim C3. -/

/-- Claim C3: the record sequence returned by to_table is exactly the
sequence of started cases in the order they were started, each record
named by its decoded method name, whatever mix of outcomes was recorded:
no re-sorting by status or name occurs.  Declaration order enters as the
order in which the runner starts the cases, which run_tests preserves by
construction of startTest. -/
theorem C3_order_preservation : ∀ (st : JudgeTestResultState) (log : MessageLog),
    (to_table st log none).map JudgeRecord.name =
      st.run_tests.map (fun t => _decode_method_name t.methodName) := by
  intro st log
  rw [to_table, List.map_map]
  exact List.map_congr_left (fun t _ => record_of_name st log t)

/- ### Claim C5. -/

theorem judge_transitions_get : ∀ (stages : List Stage) (i : Nat) (st : Stage),
    stages.get? i = some st →
    (judge_transitions stages).get? (2 * i) =
      some ((stage_name_str st, TransitionOutcome.passTuple),
        ((match stages.get? (i + 1) with
          | some nxt => stage_name_str nxt
          | none => "$"), st.score)) ∧
    (judge_transitions stages).get? (2 * i + 1) =
      some ((stage_name_str st, TransitionOutcome.otherwiseKey),
        ("$", st.unsuccessful_score)) := by
  intro stages
  induction stages with
  | nil => intro i st h; simp at h
  | cons s rest ih =>
    intro i st h
    cases i with
    | zero =>
      have hs : s = st := by simpa using h
      subst hs
      rw [judge_transitions.eq_def]
      cases rest with
      | nil => exact ⟨rfl, rfl⟩
      | cons s2 r2 => exact ⟨rfl, rfl⟩
    | succ j =>
      have h2 : rest.get? j = some st := by simpa using h
      have e1 : 2 * (j + 1) = 2 * j + 1 + 1 := by omega
      have e2 : (s :: rest).get? (j + 1 + 1) = rest.get? (j + 1) := by simp
      rw [judge_transitions.eq_def, e1, e2]
      rw [List.get?_cons_succ, List.get?_cons_succ, List.get?_cons_succ, List.get?_cons_succ]
      exact ih j st h2

theorem judge_states_get (stages : List Stage) (tl : Int) (st : Stage)
    (hmem : st ∈ stages) (hnd : (stages.map stage_name_str).Nodup) :
    pyDict.get? (judge_states tl stages) (stage_name_str st) =
      some ⟨⟨"test_runner_py310_unittest.py", "", st.mode⟩, tl,
        "judge_util.py" :: st.required_files⟩ := by
  apply pyDict.get?_ofPairs_of_nodup
  · simpa [List.map_map, Function.comp] using hnd
  · exact List.mem_map.mpr ⟨st, hmem, rfl⟩

/-- Claim C5: for a non-empty stage list with pairwise distinct names, the
generated judge setting has the name of the first stage as initial state;
its states map carries, for every stage, the runner descriptor with the
stage mode, the time limit, and the required files with judge_util.py
prepended; and its transition function maps, for stage i, the pass
outcome to the name of stage i+1, or the terminal dollar state when i is
last, paired with the stage score, and the otherwise outcome to the
terminal state paired with the unsuccessful score. -/
theorem C5_judge_setting_shape : ∀ (key ver env : String) (tl : Int) (stages : List Stage)
    (style : ExerciseStyle) (s0 : Stage) (rest : List Stage),
    stages = s0 :: rest →
    (stages.map stage_name_str).Nodup →
    ((generate_judge_setting key ver env tl stages style).evaluation.initial_state =
      stage_name_str s0) ∧
    (∀ st ∈ stages,
      pyDict.get? ((generate_judge_setting key ver env tl stages style).evaluation.states)
          (stage_name_str st) =
        some ⟨⟨"test_runner_py310_unittest.py", "", st.mode⟩, tl,
          "judge_util.py" :: st.required_files⟩) ∧
    (∀ (i : Nat) (st : Stage), stages.get? i = some st →
      ((generate_judge_setting key ver env tl stages
          style).evaluation.transition_function).get? (2 * i) =
        some ((stage_name_str st, TransitionOutcome.passTuple),
          ((match stages.get? (i + 1) with
            | some nxt => stage_name_str nxt
            | none => "$"), st.score)) ∧
      ((generate_judge_setting key ver env tl stages
          style).evaluation.transition_function).get? (2 * i + 1) =
        some ((stage_name_str st, TransitionOutcome.otherwiseKey),
          ("$", st.unsuccessful_score))) := by
  intro key ver env tl stages style s0 rest hcons hnd
  refine ⟨?_, ?_, ?_⟩
  · rw [hcons]
    rfl
  · intro st hmem
    exact judge_states_get stages tl st hmem hnd
  · intro i st h
    exact judge_transitions_get stages i st h

/-- Claim C5, witness: the theorem applied to a concrete two-stage
configuration with names s1 and s2, recovering the chained transition of
the first stage and the terminal transitions. -/
theorem C5_witness :
    ((generate_judge_setting "ex" "v1" "python" 9000 [stageW1, stageW2]
        .FORMATTED).evaluation.initial_state = "s1") ∧
    (pyDict.get? ((generate_judge_setting "ex" "v1" "python" 9000 [stageW1, stageW2]
        .FORMATTED).evaluation.states) "s2" =
      some ⟨⟨"test_runner_py310_unittest.py", "", "append"⟩, 9000,
        ["judge_util.py", "lib.py"]⟩) ∧
    (((generate_judge_setting "ex" "v1" "python" 9000 [stageW1, stageW2]
        .FORMATTED).evaluation.transition_function).get? 0 =
      some (("s1", TransitionOutcome.passTuple), ("s2", some 1))) := by
  have h := C5_judge_setting_shape "ex" "v1" "python" 9000 [stageW1, stageW2]
    .FORMATTED stageW1 [stageW2] rfl (by decide)
  refine ⟨h.1, ?_, ?_⟩
  · have h2 := h.2.1 stageW2 (by decide)
    rw [show stage_name_str stageW2 = "s2" from rfl] at h2
    rw [h2]
    rfl
  · have h3 := (h.2.2 0 stageW1 rfl).1
    rw [show (2 : Nat) * 0 = 0 from rfl] at h3
    rw [h3]
    rfl

/- ### Claim C8. -/

theorem runEvents_log_mem : ∀ (events : List RunEvent) (s : RunnerState) (t : TestCase)
    (m : String), (t, m) ∈ (runEvents s events).log →
    (t, m) ∈ s.log ∨ RunEvent.setMessage t m ∈ events := by
  intro events
  induction events with
  | nil => intro s t m h; exact Or.inl h
  | cons ev rest ih =>
    intro s t m h
    rw [runEvents, List.foldl_cons,
      show rest.foldl stepEvent (stepEvent s ev) = runEvents (stepEvent s ev) rest from rfl] at h
    rcases ih (stepEvent s ev) t m h with h2 | h2
    · cases ev with
      | startTest t2 => exact Or.inl h2
      | addSuccess t2 => exact Or.inl (pyDict.mem_pop _ _ _ h2)
      | addFailure t2 e => exact Or.inl h2
      | addError t2 e c => exact Or.inl h2
      | setMessage t2 m2 =>
        rcases pyDict.mem_insert _ _ _ _ h2 with h3 | h3
        · exact Or.inl h3
        · rw [Prod.ext_iff] at h3
          right
          have h4 : t = t2 := h3.1
          have h5 : m = m2 := h3.2
          rw [h4, h5]
          exact List.mem_cons_self _ _
    · exact Or.inr (List.mem_cons_of_mem _ h2)

/-- Claim C8: the grading entry point resets the module-level message log
before running, so its output is independent of whatever the log held
before; running the same event sequence again, starting from the log the
first run left behind, produces the identical result table; and every
entry of the log left after a run was written by a set-message event of
that run. -/
theorem C8_message_log_isolation : ∀ (prev1 prev2 : MessageLog) (events : List RunEvent),
    unittest_main prev1 events = unittest_main prev2 events ∧
    (unittest_main ((unittest_main prev1 events).1.log) events).2 =
      (unittest_main prev1 events).2 ∧
    ∀ (t : TestCase) (m : String), (t, m) ∈ (unittest_main prev1 events).1.log →
      RunEvent.setMessage t m ∈ events := by
  intro prev1 prev2 events
  refine ⟨rfl, rfl, ?_⟩
  intro t m h
  have h0 : (t, m) ∈ (runEvents ⟨initResultState, []⟩ events).log := h
  rcases runEvents_log_mem events ⟨initResultState, []⟩ t m h0 with h2 | h2
  · exact absurd h2 (List.not_mem_nil _)
  · exact h2

/-- Claim C8, witness: a run of one set-message event, started from a
stale log; the theorem traces the surviving entry back to the event of
this run. -/
theorem C8_witness :
    RunEvent.setMessage tC8 "x" ∈ [RunEvent.setMessage tC8 "x"] :=
  (C8_message_log_isolation [(tC8, "stale")] [] [RunEvent.setMessage tC8 "x"]).2.2 tC8 "x"
    (by decide)

/- ### Claim C10. -/

theorem set_ok_tag_ok_len (st : CaseTagState) (a : TagArg) (h : st.ok_tags.length ≤ 1) :
    (set_ok_tag st a).1.ok_tags.length ≤ 1 := by
  cases a with
  | noneArg => simp [set_ok_tag]
  | tagArg t => simp [set_ok_tag]
  | nameArg s =>
    rcases hg : pyDict.get? predefined_map s with _ | t
    · simpa [set_ok_tag, hg] using h
    · simp [set_ok_tag, hg]
  | otherArg => simpa [set_ok_tag] using h
  | unhashableArg => simpa [set_ok_tag] using h

theorem set_ok_tag_fail_unchanged (st : CaseTagState) (a : TagArg) :
    (set_ok_tag st a).1.fail_tags = st.fail_tags := by
  cases a with
  | noneArg => simp [set_ok_tag]
  | tagArg t => simp [set_ok_tag]
  | nameArg s =>
    rcases hg : pyDict.get? predefined_map s with _ | t <;> simp [set_ok_tag, hg]
  | otherArg => simp [set_ok_tag]
  | unhashableArg => simp [set_ok_tag]

theorem set_fail_tag_fail_len (st : CaseTagState) (a : TagArg) (h : st.fail_tags.length ≤ 1) :
    (set_fail_tag st a).1.fail_tags.length ≤ 1 := by
  cases a with
  | noneArg => simp [set_fail_tag]
  | tagArg t => simp [set_fail_tag]
  | nameArg s =>
    rcases hg : pyDict.get? predefined_map s with _ | t
    · simpa [set_fail_tag, hg] using h
    · simp [set_fail_tag, hg]
  | otherArg => simpa [set_fail_tag] using h
  | unhashableArg => simpa [set_fail_tag] using h

theorem set_fail_tag_ok_unchanged (st : CaseTagState) (a : TagArg) :
    (set_fail_tag st a).1.ok_tags = st.ok_tags := by
  cases a with
  | noneArg => simp [set_fail_tag]
  | tagArg t => simp [set_fail_tag]
  | nameArg s =>
    rcases hg : pyDict.get? predefined_map s with _ | t <;> simp [set_fail_tag, hg]
  | otherArg => simp [set_fail_tag]
  | unhashableArg => simp [set_fail_tag]

theorem set_error_tag_ok_unchanged (st : CaseTagState) (a : TagArg) (e : ExcClass) :
    (set_error_tag st a e).1.ok_tags = st.ok_tags := by
  rw [set_error_tag.eq_def]
  by_cases hsub : pyIssubclass e .Exception
  · cases a with
    | noneArg => simp [hsub]
    | tagArg t => simp [hsub]
    | nameArg s =>
      rcases hg : pyDict.get? predefined_map s with _ | t <;> simp [hsub, hg]
    | otherArg => simp [hsub]
    | unhashableArg => simp [hsub]
  · simp [hsub]

theorem set_error_tag_fail_unchanged (st : CaseTagState) (a : TagArg) (e : ExcClass) :
    (set_error_tag st a e).1.fail_tags = st.fail_tags := by
  rw [set_error_tag.eq_def]
  by_cases hsub : pyIssubclass e .Exception
  · cases a with
    | noneArg => simp [hsub]
    | tagArg t => simp [hsub]
    | nameArg s =>
      rcases hg : pyDict.get? predefined_map s with _ | t <;> simp [hsub, hg]
    | otherArg => simp [hsub]
    | unhashableArg => simp [hsub]
  · simp [hsub]

theorem applyTagCalls_invariant : ∀ (calls : List TagCall) (st : CaseTagState),
    st.ok_tags.length ≤ 1 → st.fail_tags.length ≤ 1 →
    (applyTagCalls st calls).ok_tags.length ≤ 1 ∧
      (applyTagCalls st calls).fail_tags.length ≤ 1 := by
  intro calls
  induction calls with
  | nil => intro st h1 h2; exact ⟨h1, h2⟩
  | cons call rest ih =>
    intro st h1 h2
    rw [applyTagCalls, List.foldl_cons,
      show rest.foldl applyTagCall (applyTagCall st call) =
        applyTagCalls (applyTagCall st call) rest from rfl]
    apply ih
    · cases call with
      | callOk a => exact set_ok_tag_ok_len st a h1
      | callFail a => rw [applyTagCall, set_fail_tag_ok_unchanged]; exact h1
      | callError a e => rw [applyTagCall, set_error_tag_ok_unchanged]; exact h1
    · cases call with
      | callOk a => rw [applyTagCall, set_ok_tag_fail_unchanged]; exact h2
      | callFail a => exact set_fail_tag_fail_len st a h2
      | callError a e => rw [applyTagCall, set_error_tag_fail_unchanged]; exact h2

/-- Claim C10, counterexample: an unhashable argument, such as a list,
is neither None, nor an EvaluationTag, nor the name of a predefined tag,
yet set_ok_tag and set_fail_tag raise TypeError on it, not ValueError,
because the membership test in the predefined registry hashes the
argument before the final ValueError branch can be reached. -/
theorem C10_counterexample :
    set_ok_tag initialCaseTagState .unhashableArg =
      (initialCaseTagState, some ExcClass.TypeError) ∧
    set_fail_tag initialCaseTagState .unhashableArg =
      (initialCaseTagState, some ExcClass.TypeError) ∧
    ExcClass.TypeError ≠ ExcClass.ValueError :=
  ⟨rfl, rfl, by decide⟩

/-- Claim C10 as amended: a hashable argument that is neither None, nor a
tag, nor the name of a predefined tag makes set_ok_tag and set_fail_tag
raise ValueError with the attributes returned unchanged, while an
unhashable argument makes the membership test of the predefined registry
raise TypeError, again leaving the attributes unchanged; set_error_tag
raises ValueError, leaving the rules unchanged, whenever its exception
argument is not a subclass of Exception, and likewise for a
non-resolving hashable tag argument; consequently, starting from the
initial class attributes, ok_tags and fail_tags hold at most one tag
after any sequence of setter calls. -/
theorem C10_setter_errors :
    (∀ (st : CaseTagState) (s : String), pyDict.get? predefined_map s = none →
      set_ok_tag st (.nameArg s) = (st, some ExcClass.ValueError) ∧
      set_fail_tag st (.nameArg s) = (st, some ExcClass.ValueError)) ∧
    (∀ st : CaseTagState,
      set_ok_tag st .otherArg = (st, some ExcClass.ValueError) ∧
      set_fail_tag st .otherArg = (st, some ExcClass.ValueError)) ∧
    (∀ st : CaseTagState,
      set_ok_tag st .unhashableArg = (st, some ExcClass.TypeError) ∧
      set_fail_tag st .unhashableArg = (st, some ExcClass.TypeError)) ∧
    (∀ (st : CaseTagState) (a : TagArg) (e : ExcClass),
      pyIssubclass e ExcClass.Exception = false →
      set_error_tag st a e = (st, some ExcClass.ValueError)) ∧
    (∀ (st : CaseTagState) (s : String) (e : ExcClass),
      pyDict.get? predefined_map s = none → pyIssubclass e ExcClass.Exception = true →
      set_error_tag st (.nameArg s) e = (st, some ExcClass.ValueError)) ∧
    (∀ (st : CaseTagState) (e : ExcClass), pyIssubclass e ExcClass.Exception = true →
      set_error_tag st .otherArg e = (st, some ExcClass.ValueError)) ∧
    (∀ calls : List TagCall,
      (applyTagCalls initialCaseTagState calls).ok_tags.length ≤ 1 ∧
      (applyTagCalls initialCaseTagState calls).fail_tags.length ≤ 1) := by
  refine ⟨?_, ?_, ?_, ?_, ?_, ?_, ?_⟩
  · intro st s hg
    exact ⟨by simp [set_ok_tag, hg], by simp [set_fail_tag, hg]⟩
  · intro st
    exact ⟨by simp [set_ok_tag], by simp [set_fail_tag]⟩
  · intro st
    exact ⟨by simp [set_ok_tag], by simp [set_fail_tag]⟩
  · intro st a e hsub
    simp [set_error_tag, hsub]
  · intro st s e hg hsub
    simp [set_error_tag, hsub, hg]
  · intro st e hsub
    simp [set_error_tag, hsub]
  · intro calls
    exact applyTagCalls_invariant calls initialCaseTagState (by simp [initialCaseTagState])
      (by simp [initialCaseTagState])

/-- Claim C10, witness: the string ZZ names no predefined tag, so setting
it as ok tag raises ValueError and leaves the attributes unchanged;
BaseException is not a subclass of Exception, so registering an error
tag under it raises ValueError; an unhashable argument raises TypeError;
and a concrete call sequence leaves at most one ok tag. -/
theorem C10_witness :
    set_ok_tag initialCaseTagState (.nameArg "ZZ") =
      (initialCaseTagState, some ExcClass.ValueError) ∧
    set_fail_tag initialCaseTagState .unhashableArg =
      (initialCaseTagState, some ExcClass.TypeError) ∧
    set_error_tag initialCaseTagState (.nameArg "ND") ExcClass.BaseException =
      (initialCaseTagState, some ExcClass.ValueError) ∧
    (applyTagCalls initialCaseTagState
        [.callOk (.nameArg "CO"), .callFail (.nameArg "IO"),
         .callOk (.nameArg "CO")]).ok_tags.length ≤ 1 := by
  refine ⟨(C10_setter_errors.1 initialCaseTagState "ZZ" (by decide)).1,
    (C10_setter_errors.2.2.1 initialCaseTagState).2,
    C10_setter_errors.2.2.2.1 initialCaseTagState (.nameArg "ND") ExcClass.BaseException
      (by decide),
    (C10_setter_errors.2.2.2.2.2.2
      [.callOk (.nameArg "CO"), .callFail (.nameArg "IO"), .callOk (.nameArg "CO")]).1⟩

/-- Claim C3, witness: the order theorem applied to the concrete one-case
error run of the C1 fixture, whose single record keeps the decoded name
of the single started case. -/
theorem C3_witness :
    (to_table stC1 [] none).map JudgeRecord.name = ["w"] := by
  rw [C3_order_preservation stC1 []]
  rfl

/-- Claim C4, witness: the score theorem applied to the pair one and two,
where the build-time assertion fails, and to the pair two and one, where
it passes. -/
theorem C4_witness :
    interpret_score_check (teststage none (some 1) (some 2) none .FORMATTED) = false ∧
    interpret_score_check (teststage none (some 2) (some 1) none .FORMATTED) = true := by
  constructor
  · exact (C4_score_ordering 1 2).2.2.mpr (by omega)
  · have h := (C4_score_ordering 2 1).2.2
    rcases hb : interpret_score_check (teststage none (some 2) (some 1) none .FORMATTED)
    · exact absurd (h.mp hb) (by omega)
    · rfl
